import Mathlib

/-!
Verification development for the snapnote-ai note-processing pipeline.

The definitions below are a shallow embedding of the Python backend:
`backend/agents/{graph,state,ocr_agent,structure_agent,content_agent,qa_agent,
integration_agent}.py` and `backend/services/vector_store.py`.

Modelling conventions:
* Python dictionaries / JSON values are modelled by the inductive `Json`;
  `json.loads` (a standard-library black box) is an oracle field of `Ports`.
* Python exceptions are modelled by `Except PyErr`; a `try/except` block is a
  `match` on the result.  The agents' external calls (OCR, embedding, the five
  LLM completion calls) are oracle fields of `Ports`, each an `Except` value.
* Wall-clock durations (`time.time()` differences) are not embeddable; every
  recorded processing time is modelled as `0`.  Prompt strings sent to the
  completion port are not modelled: the completion port is a black box, so its
  response is an oracle value independent of the prompt.
* Machine floats are modelled as `ℚ`.
-/

namespace SnapNote

/-- Model of a Python/JSON value (the payloads produced by `json.loads`). -/
inductive Json where
  | null : Json
  | bool (b : Bool) : Json
  | num (q : ℚ) : Json
  | str (s : String) : Json
  | arr (xs : List Json) : Json
  | obj (kvs : List (String × Json)) : Json
  deriving Repr

/-- Model of a Python exception escaping an expression. -/
inductive PyErr where
  | attributeError : PyErr
  | typeError : PyErr
  | valueError (msg : String) : PyErr
  | completionError (msg : String) : PyErr
  deriving Repr, DecidableEq

/-- Python `str(e)` for a modelled exception.  For `AttributeError`/`TypeError` the
precise Python message text depends on the runtime value; a fixed
representative message is used. -/
def pyErrMsg : PyErr → String
  | .attributeError => "object has no attribute"
  | .typeError => "unsupported object type"
  | .valueError m => m
  | .completionError m => m

/-- Python `d.get(k, default)`: only `dict`s have `.get`; any other value
raises `AttributeError`. -/
def pyGetD : Json → String → Json → Except PyErr Json
  | .obj kvs, k, d => .ok (((kvs.find? (fun kv => kv.1 == k)).map (fun kv => kv.2)).getD d)
  | _, _, _ => .error .attributeError

/-- Python iteration `for x in j`: lists yield elements, strings yield
1-character strings, dicts yield keys; other values raise `TypeError`. -/
def pyIterList : Json → Except PyErr (List Json)
  | .arr xs => .ok xs
  | .str s => .ok (s.data.map (fun c => .str (String.mk [c])))
  | .obj kvs => .ok (kvs.map (fun kv => .str kv.1))
  | _ => .error .typeError

/-- Python `len(j)`. -/
def pyLen : Json → Except PyErr Nat
  | .arr xs => .ok xs.length
  | .str s => .ok s.length
  | .obj kvs => .ok kvs.length
  | _ => .error .typeError

/-- Python truthiness of a JSON-shaped value. -/
def jsonTruthy : Json → Bool
  | .null => false
  | .bool b => b
  | .num q => decide (q ≠ 0)
  | .str s => decide (s ≠ "")
  | .arr xs => !xs.isEmpty
  | .obj kvs => !kvs.isEmpty

/-- Coercion of a JSON value into the `str` field of a typed record.  Python
stores the raw value; only its textual rendering can reach the output
document, so non-strings are rendered by a fixed placeholder scheme. -/
def pyStr : Json → String
  | .str s => s
  | .num q => toString q
  | .bool true => "True"
  | .bool false => "False"
  | .null => "None"
  | .arr _ => "[...]"
  | .obj _ => "{...}"

/-- Coercion of a JSON value into a `ℚ`-typed field (e.g. a confidence). -/
def jsonToRatD (d : ℚ) : Json → ℚ
  | .num q => q
  | .bool true => 1
  | .bool false => 0
  | _ => d

/-- Coercion of a JSON value into a `Nat`-typed field (e.g. an offset). -/
def jsonToNatD (d : Nat) : Json → Nat
  | .num q => q.num.toNat
  | _ => d

/-- Optional-string field taken from a JSON value (`None` ↦ `none`). -/
def jsonToOptStr : Json → Option String
  | .null => none
  | j => some (pyStr j)

/-! ### A stable insertion sort

`find_similar_documents` delegates ordering to the SQL `ORDER BY`; ties are
left to the store (spec §9 notes the tie-break is undefined), so any fixed
sort models it.  We use a plain insertion sort to keep the lemmas elementary. -/

/-- Insert `x` into `l` before the first element `y` with `le x y`. -/
def insertLe (le : α → α → Bool) (x : α) : List α → List α
  | [] => [x]
  | y :: ys => if le x y then x :: y :: ys else y :: insertLe le x ys

/-- Insertion sort with respect to the boolean relation `le`. -/
def sortLe (le : α → α → Bool) (l : List α) : List α :=
  l.foldr (insertLe le) []

theorem mem_insertLe (le : α → α → Bool) (x : α) (l : List α) (y : α) :
    y ∈ insertLe le x l ↔ y = x ∨ y ∈ l := by
  induction l with
  | nil => simp [insertLe]
  | cons z zs ih =>
    simp only [insertLe]
    split
    · simp
    · simp only [List.mem_cons, ih]
      tauto

theorem mem_sortLe (le : α → α → Bool) (l : List α) (y : α) :
    y ∈ sortLe le l ↔ y ∈ l := by
  induction l with
  | nil => simp [sortLe]
  | cons z zs ih =>
    simp only [sortLe, List.foldr] at *
    rw [mem_insertLe, ih, List.mem_cons]

theorem insertLe_congr (le₁ le₂ : α → α → Bool) (h : ∀ a b, le₁ a b = le₂ a b)
    (x : α) (l : List α) : insertLe le₁ x l = insertLe le₂ x l := by
  induction l with
  | nil => rfl
  | cons z zs ih => simp only [insertLe, h, ih]

theorem sortLe_congr (le₁ le₂ : α → α → Bool) (h : ∀ a b, le₁ a b = le₂ a b)
    (l : List α) : sortLe le₁ l = sortLe le₂ l := by
  induction l with
  | nil => rfl
  | cons z zs ih =>
    simp only [sortLe, List.foldr] at *
    rw [ih, insertLe_congr le₁ le₂ h]

/-! ### The vector store (`backend/services/vector_store.py`) -/

/-- A stored document row, as read by `VectorStoreService`
(`models/document.py` projection used by the similarity query).  The UUID
columns are modelled as strings and `created_at` as a preformatted string. -/
structure Document where
  id : String
  course_id : String
  status : String
  embedding : Option (List ℚ)
  title : String
  formatted_note : String
  created_at : Option String
  deriving Repr, DecidableEq

/-- Source model of `VectorStoreService.find_similar_documents`.

`cosDist` models the pgvector `cosine_distance` operator of the external
store, applied to a candidate's stored embedding and the query embedding.
Following the SQL: filter to the course, `status = 'active'` and a non-null
embedding, optionally exclude one document id, select each row together with
`1 - cosine_distance(...)` as its similarity, order by ascending cosine
distance, `LIMIT top_k`, and finally keep the rows whose similarity is at
least `similarity_threshold`. -/
def find_similar_documents (cosDist : List ℚ → List ℚ → ℚ) (docs : List Document)
    (query_embedding : List ℚ) (course_id : String) (top_k : Nat)
    (exclude_document_id : Option String) (similarity_threshold : ℚ) :
    List (Document × ℚ) :=
  let base : List Document := docs.filter (fun d =>
    d.course_id == course_id && d.status == "active" && d.embedding.isSome)
  let base2 : List Document := match exclude_document_id with
    | some e => base.filter (fun d => !(d.id == e))
    | none => base
  let scored := base2.map (fun d =>
    (d, 1 - cosDist (d.embedding.getD []) query_embedding))
  let ordered := sortLe (fun a b => decide ((1 - a.2) ≤ (1 - b.2))) scored
  (ordered.take top_k).filter (fun p => decide (similarity_threshold ≤ p.2))

/-- Refinement reference written from the spec's words (§4.3, SimilaritySearch algorithm): "compute, for
every stored document in the same scope with status `active` and a non-null
embedding vector, the cosine similarity `1 − cosine_distance(query,
candidate)`; order candidates by ascending cosine distance (equivalently
descending similarity); take the first `top_k`; then discard any candidate
whose similarity is below the floor."  Written with the descending-similarity
ordering so it can be compared with the source definition. -/
def find_similar_documents_spec (cosDist : List ℚ → List ℚ → ℚ) (docs : List Document)
    (query_embedding : List ℚ) (course_id : String) (top_k : Nat)
    (similarity_threshold : ℚ) : List (Document × ℚ) :=
  let cands := docs.filter (fun d =>
    d.course_id == course_id && d.status == "active" && d.embedding.isSome)
  let scored := cands.map (fun d =>
    (d, 1 - cosDist (d.embedding.getD []) query_embedding))
  let ordered := sortLe (fun a b => decide (b.2 ≤ a.2)) scored
  (ordered.take top_k).filter (fun p => decide (similarity_threshold ≤ p.2))

/-! ### Concrete fixtures for the retrieval claims -/

/-- A five-document course used by the spec's end-to-end retrieval scenario. -/
def exampleDoc (i : Nat) : Document :=
  { id := "doc" ++ toString i, course_id := "course1", status := "active",
    embedding := some [(i : ℚ)], title := "t" ++ toString i,
    formatted_note := "note", created_at := none }

/-- A store distance oracle giving the five example documents the cosine
distances 0.1, 0.4, 0.5, 0.7, 0.9 (hence similarities 0.9, 0.6, 0.5, 0.3,
0.1). -/
def exampleCosDist (e : List ℚ) (_q : List ℚ) : ℚ :=
  if e = [1] then 1/10 else if e = [2] then 2/5 else if e = [3] then 1/2
  else if e = [4] then 7/10 else 9/10

/-! ### Python regular-expression scanning (`re.finditer` over the fixed
patterns of `ocr_agent.extract_special_content` and the agents' JSON fence)

Each pattern of the source is implemented as a dedicated matcher
`List Char → Option Nat` returning the length of the (unique) match that the
Python regex engine would produce at the current position; `finditer` scans
left to right, and after a match resumes at the match's end (matches of one
pattern never overlap each other).  All the source's patterns match at least
one character, so the scan always advances. -/

/-- Python `\s` (ASCII whitespace set `[ \t\n\r\f\v]`). -/
def isPySpace (c : Char) : Bool :=
  c = ' ' || c = '\t' || c = '\n' || c = '\r' || c = '\x0b' || c = '\x0c'

/-- Python `\w` (letters, digits, underscore; the embedding restricts the
letter set to the alphanumeric characters Lean recognises). -/
def isWordChar (c : Char) : Bool := c.isAlphanum || c = '_'

def finditerAux (m : List Char → Option Nat) : Nat → Nat → List Char → List (Nat × List Char)
  | 0, _, _ => []
  | _ + 1, _, [] => []
  | fuel + 1, pos, c :: rest =>
    match m (c :: rest) with
    | some n => (pos, (c :: rest).take n) :: finditerAux m fuel (pos + n) ((c :: rest).drop n)
    | none => finditerAux m fuel (pos + 1) rest

/-- Python `re.finditer(pattern, text)`: the list of
`(match start, matched text)` pairs, scanning left to right without
overlap within the one pattern. -/
def finditer (m : List Char → Option Nat) (cs : List Char) : List (Nat × List Char) :=
  finditerAux m cs.length 0 cs

/-- Matcher for `\$[^$]+\$` (LaTeX inline math). -/
def matchInlineMath : List Char → Option Nat
  | '$' :: rest =>
    let body := rest.takeWhile (fun c => !(c = '$'))
    if body.length = 0 then none
    else match rest.drop body.length with
      | '$' :: _ => some (body.length + 2)
      | _ => none
  | _ => none

/-- Matcher for `\$\$[^$]+\$\$` (LaTeX display math). -/
def matchDisplayMath : List Char → Option Nat
  | '$' :: '$' :: rest =>
    let body := rest.takeWhile (fun c => !(c = '$'))
    if body.length = 0 then none
    else match rest.drop body.length with
      | '$' :: '$' :: _ => some (body.length + 4)
      | _ => none
  | _ => none

/-- The explicit characters of the math-symbol character class. -/
def mathSymbolChars : List Char :=
  ['∑', '∫', '∂', '∇', '∆', '√', '±', '×', '÷', '≤', '≥', '≠', '≈', '∞',
   '∈', '∉', '⊂', '⊃', '∪', '∩']

/-- Membership in the character class `[∑∫∂∇∆√±×÷≤≥≠≈∞∈∉⊂⊃∪∩α-ωΑ-Ω]`. -/
def isMathSymbolChar (c : Char) : Bool :=
  mathSymbolChars.contains c
    || (decide ('α' ≤ c) && decide (c ≤ 'ω'))
    || (decide ('Α' ≤ c) && decide (c ≤ 'Ω'))

/-- Matcher for the one-character math-symbol class. -/
def matchMathSymbol : List Char → Option Nat
  | c :: _ => if isMathSymbolChar c then some 1 else none
  | [] => none

/-- Matcher for an ordered alternation of literal keywords followed by
`\s*` and an opening `(` or `[`, i.e.
`(?:sin|cos|tan|log|ln|exp|lim|max|min)\s*[\(\[]`. -/
def matchFuncKeyword : List String → List Char → Option Nat
  | [], _ => none
  | kw :: alts, cs =>
    let k := kw.data
    if k.isPrefixOf cs then
      let t := cs.drop k.length
      let ws := t.takeWhile isPySpace
      match t.drop ws.length with
      | '(' :: _ => some (k.length + ws.length + 1)
      | '[' :: _ => some (k.length + ws.length + 1)
      | _ => matchFuncKeyword alts cs
    else matchFuncKeyword alts cs

/-- Index of the earliest occurrence of three consecutive backticks. -/
def findTripleBacktick : List Char → Option Nat
  | '`' :: '`' :: '`' :: _ => some 0
  | _ :: rest => (findTripleBacktick rest).map (fun i => i + 1)
  | [] => none

/-- Matcher for ```` ```[\s\S]*?``` ```` (fenced code block, lazy body). -/
def matchFencedCode : List Char → Option Nat
  | '`' :: '`' :: '`' :: rest => (findTripleBacktick rest).map (fun i => i + 6)
  | _ => none

/-- Matcher for `` `[^`]+` `` (inline code). -/
def matchInlineCode : List Char → Option Nat
  | '`' :: rest =>
    let body := rest.takeWhile (fun c => !(c = '`'))
    if body.length = 0 then none
    else match rest.drop body.length with
      | '`' :: _ => some (body.length + 2)
      | _ => none
  | _ => none

/-- Matcher for an ordered alternation of literal keywords followed by
`\s+\w+`, i.e.
`(?:def|class|function|import|from|return|if|else|for|while)\s+\w+`. -/
def matchCodeKeyword : List String → List Char → Option Nat
  | [], _ => none
  | kw :: alts, cs =>
    let k := kw.data
    if k.isPrefixOf cs then
      let t := cs.drop k.length
      let ws := t.takeWhile isPySpace
      if ws.length = 0 then matchCodeKeyword alts cs
      else
        let w := (t.drop ws.length).takeWhile isWordChar
        if w.length = 0 then matchCodeKeyword alts cs
        else some (k.length + ws.length + w.length)
    else matchCodeKeyword alts cs

/-- One `\|[^|\n]+` group of the table pattern: a pipe followed by at least
one character that is neither a pipe nor a newline. -/
def parseTableCell : List Char → Option Nat
  | '|' :: rest =>
    let run := rest.takeWhile (fun c => !(c = '|' || c = '\n'))
    if run.length = 0 then none else some (1 + run.length)
  | _ => none

/-- Greedy `(?:\|[^|\n]+)+` followed by a final `\|`: consume as many cell
groups as possible such that a closing pipe follows the last one. -/
def tableCellsAux : Nat → List Char → Option Nat
  | 0, _ => none
  | fuel + 1, cs =>
    match parseTableCell cs with
    | none => none
    | some n =>
      match tableCellsAux fuel (cs.drop n) with
      | some m => some (n + m)
      | none =>
        match cs.drop n with
        | '|' :: _ => some (n + 1)
        | _ => none

/-- Matcher for `(?:\|[^|\n]+)+\|` (pipe-delimited table row). -/
def matchTable (cs : List Char) : Option Nat := tableCellsAux cs.length cs

/-! ### `ocr_agent.extract_special_content` (rule-based fallback detector) -/

/-- A `SpecialContent` record (`agents/state.py`). -/
structure SpecialContent where
  content_type : String
  raw_text : String
  processed_text : String
  position : Nat
  confidence : ℚ
  deriving Repr

/-- Build a `SpecialContent` from a regex match, as the loops of
`extract_special_content` do (`raw_text` and `processed_text` are both the
matched text). -/
def mkSpecial (ty : String) (conf : ℚ) (pr : Nat × List Char) : SpecialContent :=
  { content_type := ty, raw_text := String.mk pr.2,
    processed_text := String.mk pr.2, position := pr.1, confidence := conf }

/-- The function-name alternatives of the formula function pattern. -/
def mathFuncNames : List String :=
  ["sin", "cos", "tan", "log", "ln", "exp", "lim", "max", "min"]

/-- The keyword alternatives of the code keyword pattern. -/
def codeKeywordNames : List String :=
  ["def", "class", "function", "import", "from", "return", "if", "else", "for", "while"]

/-- Source model of `extract_special_content`: run each pattern class's
`finditer` over the whole text, appending matches grouped by pattern in the
source's order (four formula patterns with confidence 0.8, then three code
patterns with confidence 0.7, then the table pattern with confidence 0.6). -/
def extract_special_content (text : List Char) : List SpecialContent :=
  ((finditer matchInlineMath text).map (mkSpecial "formula" (4/5)))
    ++ ((finditer matchDisplayMath text).map (mkSpecial "formula" (4/5)))
    ++ ((finditer matchMathSymbol text).map (mkSpecial "formula" (4/5)))
    ++ ((finditer (matchFuncKeyword mathFuncNames) text).map (mkSpecial "formula" (4/5)))
    ++ ((finditer matchFencedCode text).map (mkSpecial "code" (7/10)))
    ++ ((finditer matchInlineCode text).map (mkSpecial "code" (7/10)))
    ++ ((finditer (matchCodeKeyword codeKeywordNames) text).map (mkSpecial "code" (7/10)))
    ++ ((finditer matchTable text).map (mkSpecial "table" (3/5)))

/-- Input text witnessing C9: a fenced code block whose body contains the
keyword `def`, followed by an inline formula. -/
def specialDemoText : List Char := "```\ndef f(1)\n```\n$x$".data

/-! ### `integration_agent.format_knowledge_cards` (flashcard table) -/

/-- A `KnowledgeCard` record (`agents/state.py`). -/
structure KnowledgeCard where
  front : String
  back : String
  tags : List String := []
  concept : Option String := none
  deriving Repr, DecidableEq

/-- Python `s.replace("|", "\\|")` on the character list of `s`. -/
def escapePipesAux : List Char → List Char
  | [] => []
  | c :: rest =>
    if c = '|' then '\\' :: '|' :: escapePipesAux rest
    else c :: escapePipesAux rest

/-- Python `s.replace("|", "\\|")`, the pipe escaping of
`format_knowledge_cards`. -/
def escapePipes (s : String) : String := String.mk (escapePipesAux s.data)

/-- One data row of the flashcard table: `| {front} | {back} |` with pipes in
the cell contents escaped. -/
def renderCardRow (card : KnowledgeCard) : String :=
  "| " ++ escapePipes card.front ++ " | " ++ escapePipes card.back ++ " |"

/-- The three fixed lines preceding the data rows of the flashcard table. -/
def cardTableHeader : List String :=
  ["## 📚 知识卡片\n", "| 正面 | 背面 |", "|------|------|"]

/-- Source model of `integration_agent.format_knowledge_cards`: empty string
for no cards; otherwise the header lines followed by one rendered row per
card of `cards[:10]`, joined by newlines. -/
def format_knowledge_cards (cards : List KnowledgeCard) : String :=
  if cards.isEmpty then ""
  else String.intercalate "\n" (cardTableHeader ++ (cards.take 10).map renderCardRow)

/-- Property of a character list: every occurrence of `|` is immediately
preceded by a backslash. -/
def PipeEscapedIn (l : List Char) : Prop :=
  ∀ i, l.getD i ' ' = '|' → 0 < i ∧ l.getD (i - 1) ' ' = '\\'

/-- Example cards for the C7 witness; the first front contains a pipe. -/
def exampleCards : List KnowledgeCard :=
  [{ front := "a|b", back := "c" }, { front := "d", back := "e|f" }]

/-- Placeholder record used as the `getD` fallback in concrete statements. -/
def scDefault : SpecialContent :=
  { content_type := "", raw_text := "", processed_text := "", position := 0,
    confidence := 0 }

/-! ### The pipeline state (`backend/agents/state.py`) -/

/-- A `TextBlock` record. -/
structure TextBlock where
  content : String
  block_type : String
  level : Nat := 0
  metadata : Json := .obj []
  deriving Repr

/-- A `KeyConcept` record. -/
structure KeyConcept where
  term : String
  definition : Option String := none
  context : Option String := none
  importance : ℚ := 1
  deriving Repr

/-- A `RelatedNote` record. -/
structure RelatedNote where
  document_id : String
  title : String
  excerpt : String
  similarity : ℚ
  created_at : Option String := none
  deriving Repr

/-- A `QAItem` record. -/
structure QAItem where
  question : String
  answer : String
  difficulty : String := "medium"
  concept : Option String := none
  deriving Repr, DecidableEq

/-- An `AgentOutput` record (the uniform per-stage `StageResult`). -/
structure AgentOutput where
  success : Bool
  data : Json
  error : Option String := none
  processing_time : ℚ := 0
  agent_name : String := ""
  deriving Repr

/-- The `ProcessingStatus` enumeration. -/
inductive ProcessingStatus where
  | pending
  | processing
  | completed
  | failed
  deriving Repr, DecidableEq

/-- The shared `NoteProcessingState`.  The per-agent output fields are
`Option`s whose `none` models the `TypedDict` key never having been assigned.
Fields that Python may populate with arbitrary JSON shapes
(`heading_hierarchy`, `cross_references`, `key_points`, `final_metadata`) are
kept as raw `Json`.  `processing_times` is an insertion-ordered association
list (Python dict). -/
structure NoteProcessingState where
  image_bytes : List Nat
  course_id : Option String
  course_name : Option String
  additional_context : Option String
  user_id : Option String
  ocr_raw_text : String
  ocr_corrected_text : String
  ocr_confidence : ℚ
  special_contents : List SpecialContent
  ocr_agent_output : Option AgentOutput
  text_blocks : List TextBlock
  heading_hierarchy : Json
  key_concepts : List KeyConcept
  document_type : String
  structure_agent_output : Option AgentOutput
  related_notes : List RelatedNote
  rag_context : Option String
  enhanced_content : Option String
  cross_references : Json
  content_agent_output : Option AgentOutput
  qa_items : List QAItem
  knowledge_cards : List KnowledgeCard
  key_points : Json
  qa_agent_output : Option AgentOutput
  final_note : String
  final_metadata : Json
  integration_agent_output : Option AgentOutput
  status : ProcessingStatus
  current_agent : String
  errors : List String
  processing_times : List (String × ℚ)
  should_use_rag : Bool
  should_generate_qa : Bool
  deriving Repr

/-- Source model of `create_initial_state`. -/
def create_initial_state (image_bytes : List Nat) (course_id : Option String)
    (course_name : Option String) (additional_context : Option String)
    (user_id : Option String) (generate_qa : Bool) : NoteProcessingState :=
  { image_bytes := image_bytes, course_id := course_id,
    course_name := course_name, additional_context := additional_context,
    user_id := user_id,
    ocr_raw_text := "", ocr_corrected_text := "", ocr_confidence := 0,
    special_contents := [], ocr_agent_output := none,
    text_blocks := [], heading_hierarchy := .arr [], key_concepts := [],
    document_type := "notes", structure_agent_output := none,
    related_notes := [], rag_context := none, enhanced_content := some "",
    cross_references := .arr [], content_agent_output := none,
    qa_items := [], knowledge_cards := [], key_points := .arr [],
    qa_agent_output := none,
    final_note := "", final_metadata := .obj [],
    integration_agent_output := none,
    status := .pending, current_agent := "", errors := [],
    processing_times := [], should_use_rag := course_id.isSome,
    should_generate_qa := generate_qa }

/-- The external ports of one run.  OCR, embedding and the five completion
calls are black boxes, so their outcomes are oracle values; `jsonLoads`
models the standard-library `json.loads` (`none` = `JSONDecodeError`);
`storeDocs`/`cosDist` model the document store queried by the similarity
search; `now` models `datetime.now().isoformat()`. -/
structure Ports where
  ocrExtract : List Nat → Except String (String × ℚ)
  ocrCorrection : Except String String
  structureCompletion : Except String String
  contentCompletion : Except String String
  qaCompletion : Except String String
  integrationCompletion : Except String String
  createEmbedding : String → Except String (List ℚ)
  storeDocs : List Document
  cosDist : List ℚ → List ℚ → ℚ
  jsonLoads : String → Option Json
  now : String

/-! ### Shared response-parsing helpers -/

/-- Python `str.strip()` on a character list (whitespace only). -/
def trimWs (l : List Char) : List Char :=
  ((l.dropWhile isPySpace).reverse.dropWhile isPySpace).reverse

/-- Scanner for `re.search(r'```json\s*([\s\S]*?)\s*```', text)`: the first
occurrence of a `json` fence with a closing fence yields the enclosed text,
surrounding whitespace stripped (leading `\s*` is greedy, the lazy group
stops before the trailing `\s*`). -/
def searchFencedJsonAux : Nat → List Char → Option (List Char)
  | 0, _ => none
  | fuel + 1, cs =>
    if ("```json".data).isPrefixOf cs then
      match findTripleBacktick (cs.drop 7) with
      | some i => some (trimWs ((cs.drop 7).take i))
      | none =>
        match cs with
        | [] => none
        | _ :: rest => searchFencedJsonAux fuel rest
    else
      match cs with
      | [] => none
      | _ :: rest => searchFencedJsonAux fuel rest

/-- Search wrapper (fuel = length suffices: each step advances one char). -/
def searchFencedJson (cs : List Char) : Option (List Char) :=
  searchFencedJsonAux (cs.length + 1) cs

/-- The JSON-candidate string each parser extracts from a completion
response: the fenced `json` block when present, otherwise the whole
response stripped. -/
def extractJsonStr (response : String) : String :=
  match searchFencedJson response.data with
  | some g => String.mk g
  | none => String.mk (trimWs response.data)

/-- Fence extraction followed by `json.loads` (the oracle `loads`). -/
def jsonLoadsVia (loads : String → Option Json) (response : String) : Option Json :=
  loads (extractJsonStr response)

/-- Python `int()` truncation toward zero on a rational. -/
def pyInt (q : ℚ) : ℤ :=
  if 0 ≤ q then ⌊q⌋ else -⌊-q⌋

/-- Python `round(x, 2)` (to two decimal places; the source only applies it
to the modelled-as-zero processing times, so the tie-breaking mode is
immaterial). -/
def round2 (q : ℚ) : ℚ := ((round (q * 100) : ℤ) : ℚ) / 100

/-- Coercion of a JSON value into a `List String`-typed field. -/
def jsonToStrList : Json → List String
  | .arr xs => xs.map pyStr
  | _ => []

/-- Lookup of a key in a JSON object (used only in theorem statements about
metadata dictionaries). -/
def jsonLookup (j : Json) (k : String) : Option Json :=
  match j with
  | .obj kvs => (kvs.find? (fun kv => kv.1 == k)).map (fun kv => kv.2)
  | _ => none

/-! ### `ocr_agent.parse_llm_response` -/

/-- Source model of `ocr_agent.parse_llm_response`.  `json.loads` failure
(the `JSONDecodeError` arm of the source's `except`) yields the fallback of
raw text plus the rule-based detector; structural errors (`AttributeError`/
`TypeError` from `.get` on a non-dict or iterating a non-list) are not in
that `except` clause and escape as `.error`. -/
def parse_llm_response (loads : String → Option Json)
    (response_text raw_ocr_text : String) :
    Except PyErr (String × List SpecialContent) :=
  match jsonLoadsVia loads response_text with
  | none => .ok (raw_ocr_text, extract_special_content raw_ocr_text.data)
  | some data => do
    let corrected ← pyGetD data "corrected_text" (.str raw_ocr_text)
    let items ← pyGetD data "special_contents" (.arr [])
    let itemsL ← pyIterList items
    let specs ← itemsL.mapM (fun item => do
      let ty ← pyGetD item "type" (.str "unknown")
      let rt ← pyGetD item "raw_text" (.str "")
      let pt ← pyGetD item "processed_text" (.str "")
      let pos ← pyGetD item "position" (.num 0)
      let conf ← pyGetD item "confidence" (.num (1/2))
      pure { content_type := pyStr ty, raw_text := pyStr rt,
             processed_text := pyStr pt, position := jsonToNatD 0 pos,
             confidence := jsonToRatD (1/2) conf : SpecialContent })
    pure (pyStr corrected, specs)

/-! ### `structure_agent.rule_based_structure_analysis` -/

/-- Group-capturing matcher for `\*\*([^*]+)\*\*` (bold text): returns
(full match length, group). -/
def matchBoldGroup : List Char → Option (Nat × List Char)
  | '*' :: '*' :: rest =>
    let body := rest.takeWhile (fun c => !(c = '*'))
    if body.length = 0 then none
    else match rest.drop body.length with
      | '*' :: '*' :: _ => some (body.length + 4, body)
      | _ => none
  | _ => none

/-- Group-capturing matcher for a one-character-delimited group
`op([^cl]+)cl` (the quote and book-title patterns). -/
def matchQuoteGroup (op cl : Char) : List Char → Option (Nat × List Char)
  | c :: rest =>
    if c = op then
      let body := rest.takeWhile (fun x => !(x = cl))
      if body.length = 0 then none
      else match rest.drop body.length with
        | d :: _ => if d = cl then some (body.length + 2, body) else none
        | [] => none
    else none
  | [] => none

def finditerGAux (m : List Char → Option (Nat × List Char)) :
    Nat → Nat → List Char → List (Nat × Nat × List Char)
  | 0, _, _ => []
  | _ + 1, _, [] => []
  | fuel + 1, pos, c :: rest =>
    match m (c :: rest) with
    | some (n, grp) => (pos, n, grp) :: finditerGAux m fuel (pos + n) ((c :: rest).drop n)
    | none => finditerGAux m fuel (pos + 1) rest

/-- `re.finditer` for a group-capturing pattern: list of
`(match start, match length, group text)`. -/
def finditerG (m : List Char → Option (Nat × List Char)) (cs : List Char) :
    List (Nat × Nat × List Char) :=
  finditerGAux m cs.length 0 cs

/-- Python slice `l[a : b]` for already-clamped `a ≤ b` bounds. -/
def sliceChars (l : List Char) (a b : Nat) : List Char := (l.drop a).take (b - a)

/-- The four concept patterns of the rule-based fallback, in source order:
bold, Chinese corner quotes, double quotes, book-title brackets. -/
def conceptPatternMatches (text : List Char) : List (Nat × Nat × List Char) :=
  finditerG matchBoldGroup text
    ++ finditerG (matchQuoteGroup '「' '」') text
    ++ finditerG (matchQuoteGroup '"' '"') text
    ++ finditerG (matchQuoteGroup '《' '》') text

/-- Rule-based concept extraction: keep stripped groups of length in (1,30)
with importance 0.7 and a ±20-character context window. -/
def ruleBasedConcepts (text : List Char) : List KeyConcept :=
  (conceptPatternMatches text).filterMap (fun m =>
    let term := trimWs m.2.2
    if 1 < term.length ∧ term.length < 30 then
      some { term := String.mk term, definition := none,
             context := some (String.mk (sliceChars text (m.1 - 20)
               (min text.length (m.1 + m.2.1 + 20)))),
             importance := 7/10 }
    else none)

/-- The terminal-punctuation set of the heading heuristic. -/
def headingEndPunct : List Char := ['。', '，', '：', '、', '.', ',', ':', ';']

/-- The list/marker prefixes excluded by the heading heuristic (note `'0'` is
absent here but present in the list-detection branch, as in the source). -/
def headingStartMarks : List Char :=
  ['-', '•', '*', '1', '2', '3', '4', '5', '6', '7', '8', '9']

/-- The `is_heading` heuristic: short, no terminal punctuation, no list
marker prefix (applied to an already stripped, non-empty line). -/
def isHeadingLine (line : String) : Bool :=
  decide (line.length < 50)
    && !(match line.data.getLast? with
         | some c => headingEndPunct.contains c
         | none => false)
    && !(match line.data with
         | c :: _ => headingStartMarks.contains c
         | [] => false)

/-- Matcher for `^(#{1,6})\s+(.+)$` on an already stripped line, returning
(heading level, heading text).  A stripped line never ends in whitespace, so
the regex's backtracking corner case (group capturing a whitespace
character) cannot arise. -/
def mdHeadingMatch (l : List Char) : Option (Nat × List Char) :=
  let hashes := l.takeWhile (fun c => c = '#')
  let h := hashes.length
  if 1 ≤ h ∧ h ≤ 6 then
    let rest := l.drop h
    let ws := rest.takeWhile isPySpace
    if ws.length = 0 then none
    else
      let rem := rest.drop ws.length
      if rem.length = 0 then none else some (h, rem)
  else none

/-- Leading-character test backing Python `line.startswith(tuple...)` for
one-character prefixes. -/
def startsWithAny (line : String) (cs : List Char) : Bool :=
  match line.data with
  | c :: _ => cs.contains c
  | [] => false

/-- One heading entry of the rule-based `heading_hierarchy`. -/
def headingEntry (text : String) (level pos : Nat) : Json :=
  .obj [("text", .str text), ("level", .num (level : ℚ)),
        ("position", .num (pos : ℚ)), ("children", .arr [])]

/-- The per-line classification loop of `rule_based_structure_analysis`,
threading `current_pos` (which the source advances by the stripped line's
length plus one). -/
def ruleBasedBlocks : List String → Nat → List TextBlock × List Json
  | [], _ => ([], [])
  | rawLine :: rest, pos =>
    let line := String.mk (trimWs rawLine.data)
    if line = "" then ruleBasedBlocks rest (pos + line.length + 1)
    else
      let here : List TextBlock × List Json :=
        match mdHeadingMatch line.data with
        | some (level, htext) =>
          ([{ content := String.mk htext, block_type := "heading", level := level }],
           [headingEntry (String.mk htext) level pos])
        | none =>
          if startsWithAny line ['-', '•', '*'] then
            ([{ content := line, block_type := "list", level := 1 }], [])
          else if startsWithAny line ['0','1','2','3','4','5','6','7','8','9'] then
            ([{ content := line, block_type := "list", level := 1 }], [])
          else if isHeadingLine line then
            ([{ content := line, block_type := "heading", level := 2 }],
             [headingEntry line 2 pos])
          else
            ([{ content := line, block_type := "paragraph", level := 0 }], [])
      let later := ruleBasedBlocks rest (pos + line.length + 1)
      (here.1 ++ later.1, here.2 ++ later.2)

/-- The structuring result record (the dict returned by the source's
structure analysis). -/
structure StructResult where
  document_type : String
  text_blocks : List TextBlock
  heading_hierarchy : Json
  key_concepts : List KeyConcept
  deriving Repr

/-- Source model of `rule_based_structure_analysis`: line classification
over `text.split('\n')` plus the four-pattern concept extraction; document
type is always `"notes"` on this path. -/
def rule_based_structure_analysis (text : String) : StructResult :=
  let bh := ruleBasedBlocks (text.splitOn "\n") 0
  { document_type := "notes", text_blocks := bh.1,
    heading_hierarchy := .arr bh.2, key_concepts := ruleBasedConcepts text.data }

/-- Field extraction of `parse_structure_response` on decoded JSON;
structural errors escape as `.error`. -/
def structFieldsOf (data : Json) : Except PyErr StructResult := do
  let blocksJ ← pyGetD data "text_blocks" (.arr [])
  let blocksL ← pyIterList blocksJ
  let blocks ← blocksL.mapM (fun b => do
    let content ← pyGetD b "content" (.str "")
    let bt ← pyGetD b "block_type" (.str "paragraph")
    let lv ← pyGetD b "level" (.num 0)
    let md ← pyGetD b "metadata" (.obj [])
    pure { content := pyStr content, block_type := pyStr bt,
           level := jsonToNatD 0 lv, metadata := md : TextBlock })
  let conceptsJ ← pyGetD data "key_concepts" (.arr [])
  let conceptsL ← pyIterList conceptsJ
  let concepts ← conceptsL.mapM (fun c => do
    let term ← pyGetD c "term" (.str "")
    let df ← pyGetD c "definition" .null
    let cx ← pyGetD c "context" .null
    let imp ← pyGetD c "importance" (.num (1/2))
    pure { term := pyStr term, definition := jsonToOptStr df,
           context := jsonToOptStr cx,
           importance := jsonToRatD (1/2) imp : KeyConcept })
  let dt ← pyGetD data "document_type" (.str "notes")
  let hh ← pyGetD data "heading_hierarchy" (.arr [])
  pure { document_type := pyStr dt, text_blocks := blocks,
         heading_hierarchy := hh, key_concepts := concepts }

/-- Source model of `parse_structure_response`.  In the source, decode
failure is caught inside the parser and structural errors are caught by the
agent's blanket handler; both fall back to `rule_based_structure_analysis`
on the same text, so the two fallbacks are merged here. -/
def parse_structure_response (loads : String → Option Json)
    (response_text raw_text : String) : StructResult :=
  match jsonLoadsVia loads response_text with
  | none => rule_based_structure_analysis raw_text
  | some data =>
    match structFieldsOf data with
    | .ok r => r
    | .error _ => rule_based_structure_analysis raw_text

/-! ### `qa_agent.parse_qa_response` -/

/-- Source model of `parse_qa_response`.  `json.loads` failure (the
`JSONDecodeError` arm of the source's narrow `except`) yields the empty
result; structural errors from `.get` on non-dicts or iterating non-lists
are not caught there and escape as `.error`.  `key_points` is stored raw,
exactly as `data.get("key_points", [])` does. -/
def parse_qa_response (loads : String → Option Json) (response_text : String) :
    Except PyErr (List QAItem × List KnowledgeCard × Json) :=
  match jsonLoadsVia loads response_text with
  | none => .ok ([], [], .arr [])
  | some data => do
    let qaJ ← pyGetD data "qa_items" (.arr [])
    let qaL ← pyIterList qaJ
    let qa_items ← qaL.mapM (fun item => do
      let q ← pyGetD item "question" (.str "")
      let a ← pyGetD item "answer" (.str "")
      let d ← pyGetD item "difficulty" (.str "medium")
      let c ← pyGetD item "concept" .null
      pure { question := pyStr q, answer := pyStr a, difficulty := pyStr d,
             concept := jsonToOptStr c : QAItem })
    let cardsJ ← pyGetD data "knowledge_cards" (.arr [])
    let cardsL ← pyIterList cardsJ
    let knowledge_cards ← cardsL.mapM (fun card => do
      let f ← pyGetD card "front" (.str "")
      let b ← pyGetD card "back" (.str "")
      let t ← pyGetD card "tags" (.arr [])
      let c ← pyGetD card "concept" .null
      pure { front := pyStr f, back := pyStr b, tags := jsonToStrList t,
             concept := jsonToOptStr c : KnowledgeCard })
    let key_points ← pyGetD data "key_points" (.arr [])
    pure (qa_items, knowledge_cards, key_points)

/-! ### The OCR agent (`backend/agents/ocr_agent.py`) -/

/-- An `AgentOutput(success=False, data=None, error=msg, ...)` value, as each
agent's failure path constructs. -/
def mkFailOutput (name msg : String) : AgentOutput :=
  { success := false, data := .null, error := some msg, processing_time := 0,
    agent_name := name }

/-- An `AgentOutput(success=True, data=..., ...)` value, as each agent's
success path constructs. -/
def mkOkOutput (name : String) (d : Json) : AgentOutput :=
  { success := true, data := d, error := none, processing_time := 0,
    agent_name := name }

/-- The failure path of `ocr_agent`'s outer `except`: append the error,
mark the run failed, record a failed output. -/
def ocrExceptPath (s : NoteProcessingState) (msg : String) : NoteProcessingState :=
  { s with errors := s.errors ++ [msg],
           status := .failed,
           ocr_agent_output := some (mkFailOutput "ocr_agent" msg) }

/-- The LLM correction pass of `ocr_agent`: on a successful, parseable
completion the corrected text and spans; on call failure or any parse
exception the raw text plus the rule-based detector (the agent's inner
`except` appends no error). -/
def ocrCorrectionResult (p : Ports) (ocr_text : String) :
    String × List SpecialContent :=
  match p.ocrCorrection with
  | .ok response =>
    match parse_llm_response p.jsonLoads response ocr_text with
    | .ok cs => cs
    | .error _ => (ocr_text, extract_special_content ocr_text.data)
  | .error _ => (ocr_text, extract_special_content ocr_text.data)

/-- Source model of `ocr_agent`: OCR extraction (empty input and empty OCR
text raise `ValueError`, any OCR-service exception is caught by the outer
handler, all of which are fatal), then the LLM correction pass of
`ocrCorrectionResult`, then the success recording. -/
def ocr_agent (p : Ports) (s0 : NoteProcessingState) : NoteProcessingState :=
  let s := { s0 with current_agent := "ocr_agent", status := .processing }
  if s.image_bytes = [] then
    ocrExceptPath s "OCR Agent failed: No image data provided"
  else
    match p.ocrExtract s.image_bytes with
    | .error m => ocrExceptPath s ("OCR Agent failed: " ++ m)
    | .ok (ocr_text, confidence) =>
      if String.mk (trimWs ocr_text.data) = "" then
        ocrExceptPath s "OCR Agent failed: OCR failed to extract any text from the image"
      else
        let cs := ocrCorrectionResult p ocr_text
        { s with
          ocr_raw_text := ocr_text, ocr_confidence := confidence,
          ocr_corrected_text := cs.1, special_contents := cs.2,
          processing_times := s.processing_times ++ [("ocr_agent", 0)],
          ocr_agent_output := some (mkOkOutput "ocr_agent" (.obj
            [("text_length", .num (cs.1.length : ℚ)),
             ("confidence", .num confidence),
             ("special_content_count", .num (cs.2.length : ℚ))])) }

/-! ### The structure agent (`backend/agents/structure_agent.py`) -/

/-- The failure path of `structure_agent`'s outer `except`. -/
def structureExceptPath (s : NoteProcessingState) (msg : String) : NoteProcessingState :=
  { s with errors := s.errors ++ [msg],
           structure_agent_output := some (mkFailOutput "structure_agent" msg) }

/-- The body of `structure_agent` after its OCR-failure guard. -/
def structureBody (p : Ports) (s : NoteProcessingState) : NoteProcessingState :=
  let text := s.ocr_corrected_text
  if text = "" then
    structureExceptPath s "Structure Agent failed: No text available for structure analysis"
  else
    let result :=
      match p.structureCompletion with
      | .ok response => parse_structure_response p.jsonLoads response text
      | .error _ => rule_based_structure_analysis text
    let s := { s with text_blocks := result.text_blocks,
                      heading_hierarchy := result.heading_hierarchy,
                      key_concepts := result.key_concepts,
                      document_type := result.document_type }
    match pyLen s.heading_hierarchy with
    | .ok hcount =>
      { s with processing_times := s.processing_times ++ [("structure_agent", 0)],
               structure_agent_output := some (mkOkOutput "structure_agent" (.obj
                 [("document_type", .str result.document_type),
                  ("block_count", .num (result.text_blocks.length : ℚ)),
                  ("heading_count", .num (hcount : ℚ)),
                  ("concept_count", .num (result.key_concepts.length : ℚ))])) }
    | .error e =>
      structureExceptPath s ("Structure Agent failed: " ++ pyErrMsg e)

/-- Source model of `structure_agent`: skipped with a failed (error-free)
output when the OCR agent's output exists and failed; otherwise analyse the
text, falling back to the rule-based analysis when the completion call or
its parse fails. -/
def structure_agent (p : Ports) (s0 : NoteProcessingState) : NoteProcessingState :=
  let s := { s0 with current_agent := "structure_agent" }
  match s.ocr_agent_output with
  | some o =>
    if o.success then structureBody p s
    else
      { s with structure_agent_output := some (mkFailOutput "structure_agent"
                 "Structure Agent skipped: OCR Agent failed") }
  | none => structureBody p s

/-! ### The content agent (`backend/agents/content_agent.py`) -/

/-- Source model of `content_agent.format_rag_context`. -/
def format_rag_context (related_notes : List RelatedNote) : String :=
  if related_notes.isEmpty then ""
  else
    String.intercalate "\n\n" ((List.enumFrom 1 related_notes).map (fun pr =>
      "### 历史笔记 " ++ toString pr.1 ++ "：" ++ pr.2.title ++ "\n"
        ++ "*相关度: " ++ toString (pyInt (pr.2.similarity * 100)) ++ "% | 日期: "
        ++ (pr.2.created_at.getD "Unknown") ++ "*\n\n"
        ++ String.mk (pr.2.excerpt.data.take 500) ++ "...\n\n---"))

/-- Field extraction of the content agent's enhancement response;
structural errors escape as `.error` to the surrounding handler. -/
def contentFieldsOf (data : Json) (text : String) : Except PyErr (String × Json) := do
  let enh ← pyGetD data "enhanced_content" (.str text)
  let cr ← pyGetD data "cross_references" (.arr [])
  pure (pyStr enh, cr)

/-- The retrieval step of `content_agent`: `none` when the embedding call
(or any part of the step) fails — the agent's inner `except` then leaves the
freshly initialised empty retrieval fields in place. -/
def ragRetrieval (p : Ports) (text cid : String) : Option (List RelatedNote) :=
  match p.createEmbedding text with
  | .ok emb =>
    some ((find_similar_documents p.cosDist p.storeDocs emb cid 3 none (2/5)).map
      (fun pr =>
        { document_id := pr.1.id, title := pr.1.title,
          excerpt := if pr.1.formatted_note ≠ ""
            then String.mk (pr.1.formatted_note.data.take 500) else "",
          similarity := pr.2,
          created_at := pr.1.created_at : RelatedNote }))
  | .error _ => none

/-- The enhancement step of `content_agent`: the enhanced text together with
the cross-reference value when one was parsed.  Call failure, decode failure
and shape errors all fall back to the unchanged corrected text. -/
def contentEnhanceResult (p : Ports) (text : String) : String × Option Json :=
  match p.contentCompletion with
  | .ok response =>
    match jsonLoadsVia p.jsonLoads response with
    | none => (text, none)
    | some data =>
      match contentFieldsOf data text with
      | .ok ec => (ec.1, some ec.2)
      | .error _ => (text, none)
  | .error _ => (text, none)

/-- Source model of `content_agent`.  Empty corrected text raises
`ValueError` into the outer handler (which also re-assigns
`enhanced_content`, to that same empty corrected text).  Otherwise the
retrieval fields are initialised empty, retrieval runs when the flag and a
scope id are present (`ragRetrieval`), enhancement runs when a non-empty RAG
context or some concepts exist (`contentEnhanceResult`, otherwise the
corrected text is passed through unchanged), and the success recording's
`len()` on the cross-reference value can still raise into the outer
handler. -/
def content_agent (p : Ports) (s0 : NoteProcessingState) : NoteProcessingState :=
  let s := { s0 with current_agent := "content_agent" }
  let text := s.ocr_corrected_text
  if text = "" then
    let msg := "Content Agent failed: No text available for content enhancement"
    { s with errors := s.errors ++ [msg],
             enhanced_content := some s.ocr_corrected_text,
             content_agent_output := some (mkFailOutput "content_agent" msg) }
  else
    let should_use_rag := s.should_use_rag && s.course_id.isSome
    let rag : Option (List RelatedNote) :=
      if should_use_rag then
        match s.course_id with
        | some cid => ragRetrieval p text cid
        | none => none
      else none
    let related := rag.getD []
    let rag_context : Option String := rag.map format_rag_context
    let ragTruthy := match rag_context with
      | some t => t ≠ ""
      | none => false
    let enh :=
      if ragTruthy || !s.key_concepts.isEmpty then contentEnhanceResult p text
      else (text, none)
    let crossRefs := enh.2.getD (.arr [])
    match pyLen crossRefs with
    | .ok crCount =>
      { s with related_notes := related, rag_context := rag_context,
               cross_references := crossRefs, enhanced_content := some enh.1,
               processing_times := s.processing_times ++ [("content_agent", 0)],
               content_agent_output := some (mkOkOutput "content_agent" (.obj
                 [("related_notes_count", .num (related.length : ℚ)),
                  ("cross_references_count", .num (crCount : ℚ)),
                  ("used_rag", .bool (should_use_rag && !related.isEmpty))])) }
    | .error e =>
      let msg := "Content Agent failed: " ++ pyErrMsg e
      { s with related_notes := related, rag_context := rag_context,
               cross_references := crossRefs,
               errors := s.errors ++ [msg],
               enhanced_content := some s.ocr_corrected_text,
               content_agent_output := some (mkFailOutput "content_agent" msg) }

/-! ### The QA agent (`backend/agents/qa_agent.py`) -/

/-- The failure path of `qa_agent`'s outer `except`: append the error, reset
the three output lists, record a failed output. -/
def qaExceptPath (s : NoteProcessingState) (msg : String) : NoteProcessingState :=
  { s with errors := s.errors ++ [msg],
           qa_items := [], knowledge_cards := [], key_points := .arr [],
           qa_agent_output := some (mkFailOutput "qa_agent" msg) }

/-- Source model of `qa_agent`: with the flag off, record a succeeded
"skipped" output with empty lists; otherwise generate from the best
available content, where completion-call failure, absent content, or a
structural parse error all land in the outer handler. -/
def qa_agent (p : Ports) (s0 : NoteProcessingState) : NoteProcessingState :=
  let s := { s0 with current_agent := "qa_agent" }
  if !s.should_generate_qa then
    { s with qa_items := [], knowledge_cards := [], key_points := .arr [],
             qa_agent_output := some (mkOkOutput "qa_agent" (.obj
               [("skipped", .bool true),
                ("reason", .str "QA generation disabled")])) }
  else
    let content := match s.enhanced_content with
      | some t => if t ≠ "" then t else s.ocr_corrected_text
      | none => s.ocr_corrected_text
    if content = "" then
      qaExceptPath s "QA Agent failed: No content available for Q&A generation"
    else
      match p.qaCompletion with
      | .error m => qaExceptPath s ("QA Agent failed: " ++ m)
      | .ok response =>
        match parse_qa_response p.jsonLoads response with
        | .error e => qaExceptPath s ("QA Agent failed: " ++ pyErrMsg e)
        | .ok res =>
          let s := { s with qa_items := res.1, knowledge_cards := res.2.1,
                            key_points := res.2.2 }
          match pyLen res.2.2 with
          | .ok kpCount =>
            { s with processing_times := s.processing_times ++ [("qa_agent", 0)],
                     qa_agent_output := some (mkOkOutput "qa_agent" (.obj
                       [("qa_count", .num (res.1.length : ℚ)),
                        ("card_count", .num (res.2.1.length : ℚ)),
                        ("key_point_count", .num (kpCount : ℚ))])) }
          | .error e => qaExceptPath s ("QA Agent failed: " ++ pyErrMsg e)

/-! ### The integration agent (`backend/agents/integration_agent.py`) -/

/-- The key-point lines of `format_qa_section` (iterating a non-list
`key_points` raises `TypeError` to the caller). -/
def keyPointSections (key_points : Json) : Except PyErr (List String) :=
  if jsonTruthy key_points then
    match pyIterList key_points with
    | .error e => .error e
    | .ok kps =>
      .ok (["## 📌 关键要点\n"]
        ++ (List.enumFrom 1 kps).map (fun pr => toString pr.1 ++ ". " ++ pyStr pr.2)
        ++ [""])
  else .ok []

/-- The review-question lines of `format_qa_section`. -/
def qaItemSections (qa_items : List QAItem) : List String :=
  if !qa_items.isEmpty then
    ["## ❓ 复习问题\n"]
      ++ ((List.enumFrom 1 qa_items).map (fun pr =>
        let emoji := if pr.2.difficulty = "easy" then "🟢"
          else if pr.2.difficulty = "medium" then "🟡"
          else if pr.2.difficulty = "hard" then "🔴" else "🟡"
        ["### Q" ++ toString pr.1 ++ " " ++ emoji,
         "**问题**: " ++ pr.2.question ++ "\n",
         "<details>",
         "<summary>查看答案</summary>\n",
         pr.2.answer,
         "</details>\n"])).flatten
  else []

/-- Source model of `integration_agent.format_qa_section`. -/
def format_qa_section (qa_items : List QAItem) (key_points : Json) :
    Except PyErr String :=
  match keyPointSections key_points with
  | .error e => .error e
  | .ok kpSections =>
    .ok (String.intercalate "\n" (kpSections ++ qaItemSections qa_items))

/-- The cross-reference items of `build_integration_prompt`: Python first
tests the raw `cross_references` value for truthiness and then iterates it
(`TypeError` on a truthy non-iterable such as a number), keeping a
`- concept → title: relation` line for each dict entry and skipping the
rest. -/
def crossRefLines (cross_refs : Json) : Except PyErr (List String) :=
  if jsonTruthy cross_refs then
    match pyIterList cross_refs with
    | .error e => .error e
    | .ok refs =>
      .ok (refs.filterMap (fun r =>
        match r with
        | .obj kvs =>
          some ("- " ++ pyStr ((jsonLookup (.obj kvs) "concept").getD (.str ""))
            ++ " → " ++ pyStr ((jsonLookup (.obj kvs) "reference_title").getD (.str ""))
            ++ ": " ++ pyStr ((jsonLookup (.obj kvs) "relationship").getD (.str "")))
        | _ => none))
  else .ok []

/-- Source model of `build_integration_prompt`'s observable behaviour.  The
prompt text itself goes only to the black-box completion port, whose
response is an oracle, so the assembled string is not reproduced; what is
kept is everything that can raise: of the four summaries the function
formats, the concept, related-note and content parts iterate typed lists
and cannot fail, while the cross-reference part (`crossRefLines`) iterates
the raw `cross_references` value and can raise `TypeError` — before the
completion call is ever made. -/
def build_integration_prompt (s : NoteProcessingState) :
    Except PyErr (List String) :=
  crossRefLines s.cross_references

/-- The `try` body of `integration_agent`: prompt construction (which can
raise on a malformed `cross_references` value), completion call, optional
Q&A and flashcard sections, final note assembly, metadata in source field
order, and status update (the source sets `COMPLETED` in both arms of its
errors-present branch). -/
def integrationTry (p : Ports) (s : NoteProcessingState) :
    Except PyErr NoteProcessingState :=
  match build_integration_prompt s with
  | .error e => .error e
  | .ok _ =>
  match p.integrationCompletion with
  | .error m => .error (.completionError m)
  | .ok main_note =>
  match format_qa_section s.qa_items s.key_points with
  | .error e => .error e
  | .ok qa_section =>
  let cards_section := format_knowledge_cards s.knowledge_cards
  let final_parts := [main_note]
    ++ (if qa_section ≠ "" then ["\n---\n", qa_section] else [])
    ++ (if cards_section ≠ "" then ["\n---\n", cards_section] else [])
  let final_note := String.intercalate "\n" final_parts
  let s := { s with final_note := final_note }
  let total : ℚ := (s.processing_times.map (fun pr => pr.2)).sum
  let metadata : Json := .obj [
    ("processing_time_total", .num (round2 total)),
    ("processing_times", .obj (s.processing_times.map
        (fun pr => (pr.1, Json.num (round2 pr.2))))),
    ("ocr_confidence", .num s.ocr_confidence),
    ("document_type", .str s.document_type),
    ("related_notes_count", .num (s.related_notes.length : ℚ)),
    ("key_concepts_count", .num (s.key_concepts.length : ℚ)),
    ("qa_items_count", .num (s.qa_items.length : ℚ)),
    ("knowledge_cards_count", .num (s.knowledge_cards.length : ℚ)),
    ("special_contents_count", .num (s.special_contents.length : ℚ)),
    ("errors", .arr (s.errors.map Json.str)),
    ("agents_run", .arr (s.processing_times.map (fun pr => Json.str pr.1))),
    ("used_rag", .bool (!s.related_notes.isEmpty)),
    ("generated_qa", .bool (!s.qa_items.isEmpty)),
    ("timestamp", .str p.now)]
  let s := { s with final_metadata := metadata, status := .completed }
  .ok { s with
    processing_times := s.processing_times ++ [("integration_agent", 0)],
    integration_agent_output := some (mkOkOutput "integration_agent" (.obj
      [("final_note_length", .num (final_note.length : ℚ)),
       ("sections_included", .obj [("main", .bool true),
         ("qa", .bool (qa_section ≠ "")),
         ("cards", .bool (cards_section ≠ ""))])])) }

/-- Source model of `integration_agent`: on any exception in the body (all of
which occur before the body's first state mutation), fall back to the best
available content as the final note, record an error metadata object, append
the error and mark the run failed. -/
def integration_agent (p : Ports) (s0 : NoteProcessingState) : NoteProcessingState :=
  let s := { s0 with current_agent := "integration_agent" }
  match integrationTry p s with
  | .ok s2 => s2
  | .error e =>
    let msg := "Integration Agent failed: " ++ pyErrMsg e
    let fallback := match s.enhanced_content with
      | some t => if t ≠ "" then t else s.ocr_corrected_text
      | none => s.ocr_corrected_text
    { s with final_note := fallback,
             final_metadata := .obj [("error", .str msg)],
             errors := s.errors ++ [msg],
             status := .failed,
             integration_agent_output := some (mkFailOutput "integration_agent" msg) }

/-! ### The driver (`backend/agents/graph.py`) -/

/-- The inputs of `process_note_with_agents`. -/
structure RunInput where
  image_bytes : List Nat
  course_id : Option String := none
  course_name : Option String := none
  additional_context : Option String := none
  user_id : Option String := none
  generate_qa : Bool := true

/-- Source model of the compiled LangGraph: OCR, then
`should_continue_after_ocr` (continue iff the OCR output exists and
succeeded, else mark the run failed and stop), then structuring and content
unconditionally, then `should_continue_after_content` (run the QA agent iff
the flag is set), then integration. -/
def runPipeline (p : Ports) (inp : RunInput) : NoteProcessingState :=
  let s0 := create_initial_state inp.image_bytes inp.course_id inp.course_name
    inp.additional_context inp.user_id inp.generate_qa
  let s1 := ocr_agent p s0
  match s1.ocr_agent_output with
  | some o =>
    if o.success then
      let s2 := structure_agent p s1
      let s3 := content_agent p s2
      let s4 := if s3.should_generate_qa then qa_agent p s3 else s3
      integration_agent p s4
    else { s1 with status := .failed }
  | none => { s1 with status := .failed }

/-! ### Concrete fixtures for the pipeline claims -/

/-- Ports for the "every completion call fails" scenario (OCR itself
succeeds with the text `2+2=4` at confidence 0.95). -/
def portsAllFail : Ports :=
  { ocrExtract := fun _ => .ok ("2+2=4", 19/20),
    ocrCorrection := .error "boom",
    structureCompletion := .error "boom",
    contentCompletion := .error "boom",
    qaCompletion := .error "boom",
    integrationCompletion := .error "boom",
    createEmbedding := fun _ => .error "no embedding",
    storeDocs := [],
    cosDist := fun _ _ => 0,
    jsonLoads := fun _ => none,
    now := "2026-01-01T00:00:00" }

/-- Ports whose OCR extraction itself fails. -/
def portsOcrFail : Ports :=
  { portsAllFail with ocrExtract := fun _ => .error "ocr down" }

/-- Ports whose completion calls all succeed with plain text responses that
do not decode as JSON. -/
def portsPlainOk : Ports :=
  { portsAllFail with
    ocrCorrection := .ok "plain text",
    structureCompletion := .ok "plain text",
    contentCompletion := .ok "plain text",
    qaCompletion := .ok "plain text",
    integrationCompletion := .ok "final note body" }

/-- Ports whose QA completion returns `[]` — valid JSON of the wrong shape
(`json.loads` yields a top-level array). -/
def portsQaBadShape : Ports :=
  { portsAllFail with
    qaCompletion := .ok "[]",
    jsonLoads := fun s => if s = "[]" then some (.arr []) else none }

/-- A one-image input with assessment generation enabled. -/
def inputQaOn : RunInput := { image_bytes := [1], generate_qa := true }

/-- A one-image input with assessment generation disabled. -/
def inputQaOff : RunInput := { image_bytes := [1], generate_qa := false }

/-- A state reaching the QA agent with non-empty enhanced content (used by
the C10 counterexample and witness). -/
def qaDemoState : NoteProcessingState :=
  { create_initial_state [1] none none none none true with
      ocr_corrected_text := "2+2=4", enhanced_content := some "note text" }

/-- A state reaching the content agent with the corrected text missing but
raw OCR text present (used by the C5 counterexample). -/
def c5State : NoteProcessingState :=
  { create_initial_state [1] none none none none true with
      ocr_raw_text := "hello", ocr_corrected_text := "" }

/-- A state reaching the integration agent for the C8 witness: retrieval was
enabled (a scope id is present) but no related documents were retrieved. -/
def c8State : NoteProcessingState :=
  create_initial_state [1] (some "course1") none none none true

/-! ## Theorems -/

/-- C2: For every query vector, scope, `top_k` and similarity floor (and
optional excluded id), `find_similar_documents` returns only candidates whose
`course_id` equals the query scope, returns at most `top_k` candidates, and
returns no candidate with similarity strictly below the supplied floor. -/
theorem C2_similarity_search_scope_topk_floor
    (cosDist : List ℚ → List ℚ → ℚ) (docs : List Document) (q : List ℚ)
    (cid : String) (top_k : Nat) (excl : Option String) (thr : ℚ) :
    (∀ p ∈ find_similar_documents cosDist docs q cid top_k excl thr,
        p.1.course_id = cid)
    ∧ (find_similar_documents cosDist docs q cid top_k excl thr).length ≤ top_k
    ∧ (∀ p ∈ find_similar_documents cosDist docs q cid top_k excl thr,
        thr ≤ p.2) := by
  have hbase : ∀ p ∈ find_similar_documents cosDist docs q cid top_k excl thr,
      p.1.course_id = cid ∧ thr ≤ p.2 := by
    intro p hp
    simp only [find_similar_documents, List.mem_filter, decide_eq_true_eq] at hp
    obtain ⟨hp, hthr⟩ := hp
    refine ⟨?_, hthr⟩
    have hp2 := List.take_subset _ _ hp
    rw [mem_sortLe] at hp2
    simp only [List.mem_map] at hp2
    obtain ⟨d, hd, rfl⟩ := hp2
    have hdbase : d ∈ docs.filter (fun d =>
        d.course_id == cid && d.status == "active" && d.embedding.isSome) := by
      cases excl with
      | none => exact hd
      | some e => exact (List.mem_filter.mp hd).1
    have := (List.mem_filter.mp hdbase).2
    simp only [Bool.and_eq_true, beq_iff_eq] at this
    exact this.1.1
  refine ⟨fun p hp => (hbase p hp).1, ?_, fun p hp => (hbase p hp).2⟩
  calc (find_similar_documents cosDist docs q cid top_k excl thr).length
      ≤ _ := by
        simp only [find_similar_documents]
        exact List.length_filter_le _ _
    _ ≤ top_k := List.length_take_le _ _

/-- Witness for C2 at a concrete one-document store. -/
theorem C2_similarity_search_scope_topk_floor_witness :
    (exampleDoc 1, (9:ℚ)/10) ∈
        find_similar_documents exampleCosDist [exampleDoc 1] [] "course1" 3 none (2/5)
    ∧ (exampleDoc 1).course_id = "course1" := by
  have hmem : (exampleDoc 1, (9:ℚ)/10) ∈
      find_similar_documents exampleCosDist [exampleDoc 1] [] "course1" 3 none (2/5) := by
    norm_num [find_similar_documents, sortLe, insertLe, exampleCosDist, exampleDoc]
  exact ⟨hmem,
    (C2_similarity_search_scope_topk_floor exampleCosDist [exampleDoc 1] []
      "course1" 3 none (2/5)).1 _ hmem⟩

/-- C3: `find_similar_documents` computes similarity as `1 - cosine
distance` over every in-scope document with status `"active"` and a non-null
embedding, orders candidates by descending similarity, takes the first
`top_k`, and only afterwards discards candidates below the floor (it agrees
with the spec-worded algorithm for every input); in particular, for five
in-scope documents with similarities `[0.9, 0.6, 0.5, 0.3, 0.1]`, floor `0.4`
and `top_k = 3`, the result is exactly the documents with similarities
`0.9, 0.6, 0.5`, in that order. -/
theorem C3_similarity_search_order_then_filter :
    (∀ (cosDist : List ℚ → List ℚ → ℚ) (docs : List Document) (q : List ℚ)
        (cid : String) (top_k : Nat) (thr : ℚ),
      find_similar_documents cosDist docs q cid top_k none thr
        = find_similar_documents_spec cosDist docs q cid top_k thr)
    ∧ find_similar_documents exampleCosDist
        [exampleDoc 1, exampleDoc 2, exampleDoc 3, exampleDoc 4, exampleDoc 5]
        [] "course1" 3 none (2/5)
      = [(exampleDoc 1, 9/10), (exampleDoc 2, 3/5), (exampleDoc 3, 1/2)] := by
  constructor
  · intro cosDist docs q cid top_k thr
    have hle : ∀ a b : Document × ℚ,
        (decide ((1 - a.2) ≤ (1 - b.2))) = (decide (b.2 ≤ a.2)) := by
      intro a b
      rw [decide_eq_decide]
      constructor <;> intro h <;> linarith
    simp only [find_similar_documents, find_similar_documents_spec]
    rw [sortLe_congr _ _ hle]
  · norm_num [find_similar_documents, sortLe, insertLe, exampleCosDist, exampleDoc]

/-! ### Frame lemmas: the fields each agent leaves untouched -/

theorem ocr_agent_preserves (p : Ports) (s : NoteProcessingState) :
    (ocr_agent p s).structure_agent_output = s.structure_agent_output
    ∧ (ocr_agent p s).content_agent_output = s.content_agent_output
    ∧ (ocr_agent p s).qa_agent_output = s.qa_agent_output
    ∧ (ocr_agent p s).integration_agent_output = s.integration_agent_output
    ∧ (ocr_agent p s).qa_items = s.qa_items
    ∧ (ocr_agent p s).knowledge_cards = s.knowledge_cards
    ∧ (ocr_agent p s).key_points = s.key_points
    ∧ (ocr_agent p s).should_generate_qa = s.should_generate_qa := by
  simp only [ocr_agent, ocrExceptPath]
  repeat' split
  all_goals simp

theorem structure_agent_preserves (p : Ports) (s : NoteProcessingState) :
    (structure_agent p s).ocr_agent_output = s.ocr_agent_output
    ∧ (structure_agent p s).qa_items = s.qa_items
    ∧ (structure_agent p s).knowledge_cards = s.knowledge_cards
    ∧ (structure_agent p s).key_points = s.key_points
    ∧ (structure_agent p s).qa_agent_output = s.qa_agent_output
    ∧ (structure_agent p s).should_generate_qa = s.should_generate_qa := by
  simp only [structure_agent, structureBody, structureExceptPath]
  repeat' split
  all_goals simp

theorem content_agent_preserves (p : Ports) (s : NoteProcessingState) :
    (content_agent p s).ocr_agent_output = s.ocr_agent_output
    ∧ (content_agent p s).qa_items = s.qa_items
    ∧ (content_agent p s).knowledge_cards = s.knowledge_cards
    ∧ (content_agent p s).key_points = s.key_points
    ∧ (content_agent p s).qa_agent_output = s.qa_agent_output
    ∧ (content_agent p s).should_generate_qa = s.should_generate_qa := by
  simp only [content_agent]
  repeat' split
  all_goals simp

theorem qa_agent_preserves (p : Ports) (s : NoteProcessingState) :
    (qa_agent p s).ocr_agent_output = s.ocr_agent_output := by
  simp only [qa_agent, qaExceptPath]
  repeat' split
  all_goals simp

theorem integration_agent_preserves (p : Ports) (s : NoteProcessingState) :
    (integration_agent p s).ocr_agent_output = s.ocr_agent_output
    ∧ (integration_agent p s).qa_items = s.qa_items
    ∧ (integration_agent p s).knowledge_cards = s.knowledge_cards
    ∧ (integration_agent p s).key_points = s.key_points
    ∧ (integration_agent p s).qa_agent_output = s.qa_agent_output := by
  simp only [integration_agent, integrationTry]
  split
  case h_1 s2 heq =>
    split at heq
    · simp at heq
    · split at heq
      · simp at heq
      · split at heq
        · simp at heq
        · injection heq with h
          subst h
          simp
  case h_2 e heq => simp

/-- Helper: every pipe in the output of the pipe-escaping pass is immediately
preceded by a backslash. -/
theorem pipeEscapedIn_escapePipesAux (l : List Char) :
    PipeEscapedIn (escapePipesAux l) := by
  induction l with
  | nil => intro i hi; simp [escapePipesAux] at hi
  | cons c rest ih =>
    intro i hi
    by_cases hc : c = '|'
    · subst hc
      simp only [escapePipesAux, if_pos rfl] at hi ⊢
      match i, hi with
      | 0, hi => simp at hi
      | 1, hi => exact ⟨Nat.zero_lt_one, by simp⟩
      | (n + 2), hi =>
        have hrec := ih n (by simpa using hi)
        cases n with
        | zero => exact absurd hrec.1 (by simp)
        | succ m =>
          refine ⟨by omega, ?_⟩
          have : (m + 1 + 2) - 1 = m + 2 := by omega
          rw [this]
          simpa using hrec.2
    · simp only [escapePipesAux, if_neg hc] at hi ⊢
      match i, hi with
      | 0, hi => simp only [List.getD_cons_zero] at hi; exact absurd hi hc
      | (n + 1), hi =>
        have hrec := ih n (by simpa using hi)
        cases n with
        | zero => exact absurd hrec.1 (by simp)
        | succ m =>
          refine ⟨by omega, ?_⟩
          have : (m + 1 + 1) - 1 = m + 1 := by omega
          rw [this]
          simpa using hrec.2

/-- Helper: `escapePipes` output, as a string, has every pipe escaped. -/
theorem pipeEscapedIn_escapePipes (s : String) :
    PipeEscapedIn (escapePipes s).data :=
  pipeEscapedIn_escapePipesAux s.data

/-- C7: For every non-empty list of flashcards given to Assembly, the rendered
flashcard table consists of the fixed header lines followed by exactly one
data row per input flashcard up to a cap of 10 rows (cards beyond the tenth
are dropped), and every `|` occurring in a card's front or back text is
escaped as `\|` in its row. -/
theorem C7_flashcard_table_rows (cards : List KnowledgeCard) (h : cards ≠ []) :
    format_knowledge_cards cards
      = String.intercalate "\n" (cardTableHeader ++ (cards.take 10).map renderCardRow)
    ∧ ((cards.take 10).map renderCardRow).length = min cards.length 10
    ∧ ∀ card ∈ cards.take 10,
        PipeEscapedIn (escapePipes card.front).data
        ∧ PipeEscapedIn (escapePipes card.back).data := by
  refine ⟨?_, ?_, ?_⟩
  · simp [format_knowledge_cards, h]
  · simp [List.length_take, Nat.min_comm]
  · intro card _
    exact ⟨pipeEscapedIn_escapePipes _, pipeEscapedIn_escapePipes _⟩

/-- Witness for C7 at a concrete two-card list (one row per card, no cap hit). -/
theorem C7_flashcard_table_rows_witness :
    exampleCards ≠ []
    ∧ ((exampleCards.take 10).map renderCardRow).length
        = min exampleCards.length 10 :=
  ⟨by decide, (C7_flashcard_table_rows exampleCards (by decide)).2.1⟩

/-- C9: The rule-based special-content detector returns, for some input text
(a fenced code block containing the keyword `def`, followed by an inline
formula), a list that is not ordered by source offset and that contains
multiple overlapping entries for the same region: matches are appended
grouped by pattern class (the formula match precedes the code matches even
though it occurs later in the text), and the fenced-block region is reported
three times (fenced pattern, inline-backtick pattern, keyword pattern), the
keyword entry lying strictly inside the fenced entry. -/
theorem C9_special_content_unordered_overlapping :
    ((extract_special_content specialDemoText).map
        (fun sc => (sc.content_type, sc.position, sc.raw_text.length))
      = [("formula", 17, 3), ("code", 0, 16), ("code", 2, 12), ("code", 4, 5)])
    ∧ ¬ List.Sorted (· ≤ ·)
        ((extract_special_content specialDemoText).map (fun sc => sc.position))
    ∧ (extract_special_content specialDemoText).length = 4
    ∧ (((extract_special_content specialDemoText).getD 1 scDefault).content_type = "code"
        ∧ ((extract_special_content specialDemoText).getD 3 scDefault).content_type = "code"
        ∧ ((extract_special_content specialDemoText).getD 1 scDefault).position
            < ((extract_special_content specialDemoText).getD 3 scDefault).position
        ∧ ((extract_special_content specialDemoText).getD 3 scDefault).position
              + ((extract_special_content specialDemoText).getD 3 scDefault).raw_text.length
            ≤ ((extract_special_content specialDemoText).getD 1 scDefault).position
              + ((extract_special_content specialDemoText).getD 1 scDefault).raw_text.length) := by
  refine ⟨rfl, by decide, rfl, rfl, rfl, by decide, by decide⟩

/-- C1: For every run in which the Extraction stage's StageResult indicates
failure, the run status is `failed` and no later stage executes: the
Structuring, Enrichment, Assessment and Assembly StageResult fields remain
absent from the terminal PipelineState. -/
theorem C1_extraction_failure_halts (p : Ports) (inp : RunInput) (o : AgentOutput)
    (hout : (runPipeline p inp).ocr_agent_output = some o)
    (hfail : o.success = false) :
    (runPipeline p inp).status = .failed
    ∧ (runPipeline p inp).structure_agent_output = none
    ∧ (runPipeline p inp).content_agent_output = none
    ∧ (runPipeline p inp).qa_agent_output = none
    ∧ (runPipeline p inp).integration_agent_output = none := by
  have hocr := ocr_agent_preserves p (create_initial_state inp.image_bytes
    inp.course_id inp.course_name inp.additional_context inp.user_id inp.generate_qa)
  simp only [runPipeline] at hout ⊢
  rcases hh : (ocr_agent p (create_initial_state inp.image_bytes inp.course_id
      inp.course_name inp.additional_context inp.user_id inp.generate_qa)).ocr_agent_output
    with _ | o2
  · simp only [hh] at hout
    simp at hout
  · simp only [hh] at hout ⊢
    by_cases hsucc : o2.success
    · simp only [hsucc, if_true] at hout
      exfalso
      set s1 := ocr_agent p (create_initial_state inp.image_bytes inp.course_id
        inp.course_name inp.additional_context inp.user_id inp.generate_qa) with hs1
      have h2 := (structure_agent_preserves p s1).1
      have h3 := (content_agent_preserves p (structure_agent p s1)).1
      have h4 : ((if (content_agent p (structure_agent p s1)).should_generate_qa
          then qa_agent p (content_agent p (structure_agent p s1))
          else content_agent p (structure_agent p s1))).ocr_agent_output
          = (content_agent p (structure_agent p s1)).ocr_agent_output := by
        split
        · exact qa_agent_preserves p _
        · rfl
      have h5 := (integration_agent_preserves p
        (if (content_agent p (structure_agent p s1)).should_generate_qa
          then qa_agent p (content_agent p (structure_agent p s1))
          else content_agent p (structure_agent p s1))).1
      rw [h5, h4, h3, h2, hh] at hout
      obtain rfl : o2 = o := by injection hout
      rw [hfail] at hsucc
      exact Bool.false_ne_true hsucc
    · rw [Bool.not_eq_true] at hsucc
      rw [hsucc] at hout ⊢
      simp only [Bool.false_eq_true, if_false] at hout ⊢
      exact ⟨trivial, by rw [hocr.1]; rfl, by rw [hocr.2.1]; rfl,
        by rw [hocr.2.2.1]; rfl, by rw [hocr.2.2.2.1]; rfl⟩

/-- Witness for C1: a run whose OCR extraction fails ends `failed` with the
Structuring StageResult absent. -/
theorem C1_extraction_failure_halts_witness :
    (runPipeline portsOcrFail inputQaOn).status = .failed
    ∧ (runPipeline portsOcrFail inputQaOn).structure_agent_output = none := by
  have h := C1_extraction_failure_halts portsOcrFail inputQaOn
    (mkFailOutput "ocr_agent" "OCR Agent failed: ocr down") rfl rfl
  exact ⟨h.1, h.2.1⟩

/-- C4 (amended): For every run started with the generate-assessment flag
false, the Assessment stage's three output lists are empty in the terminal
state, and the Assessment stage's StageResult is absent — the router routes
straight from Enrichment to Assembly, so the agent's own skip branch (which
would record a succeeded "skipped" result) never executes. -/
theorem C4_assessment_disabled (p : Ports) (inp : RunInput)
    (h : inp.generate_qa = false) :
    (runPipeline p inp).qa_items = []
    ∧ (runPipeline p inp).knowledge_cards = []
    ∧ (runPipeline p inp).key_points = .arr []
    ∧ (runPipeline p inp).qa_agent_output = none := by
  have hocr := ocr_agent_preserves p (create_initial_state inp.image_bytes
    inp.course_id inp.course_name inp.additional_context inp.user_id inp.generate_qa)
  simp only [runPipeline]
  rcases hh : (ocr_agent p (create_initial_state inp.image_bytes inp.course_id
      inp.course_name inp.additional_context inp.user_id inp.generate_qa)).ocr_agent_output
    with _ | o2
  · exact ⟨by rw [hocr.2.2.2.2.1]; rfl, by rw [hocr.2.2.2.2.2.1]; rfl,
      by rw [hocr.2.2.2.2.2.2.1]; rfl, by rw [hocr.2.2.1]; rfl⟩
  · by_cases hsucc : o2.success
    · simp only [hh, hsucc, if_true]
      set s1 := ocr_agent p (create_initial_state inp.image_bytes inp.course_id
        inp.course_name inp.additional_context inp.user_id inp.generate_qa) with hs1
      set s3 := content_agent p (structure_agent p s1) with hs3
      have hflag : s3.should_generate_qa = false := by
        rw [hs3, (content_agent_preserves p _).2.2.2.2.2,
          (structure_agent_preserves p _).2.2.2.2.2, hs1,
          hocr.2.2.2.2.2.2.2]
        simpa [create_initial_state] using h
      rw [hflag]
      simp only [Bool.false_eq_true, if_false]
      have hint := integration_agent_preserves p s3
      have hcon := content_agent_preserves p (structure_agent p s1)
      have hstr := structure_agent_preserves p s1
      refine ⟨?_, ?_, ?_, ?_⟩
      · rw [hint.2.1, hs3, hcon.2.1, hstr.2.1, hs1, hocr.2.2.2.2.1]; rfl
      · rw [hint.2.2.1, hs3, hcon.2.2.1, hstr.2.2.1, hs1, hocr.2.2.2.2.2.1]; rfl
      · rw [hint.2.2.2.1, hs3, hcon.2.2.2.1, hstr.2.2.2.1, hs1, hocr.2.2.2.2.2.2.1]; rfl
      · rw [hint.2.2.2.2, hs3, hcon.2.2.2.2.1, hstr.2.2.2.2.1, hs1, hocr.2.2.1]; rfl
    · rw [Bool.not_eq_true] at hsucc
      simp only [hh, hsucc, Bool.false_eq_true, if_false]
      exact ⟨by rw [hocr.2.2.2.2.1]; rfl, by rw [hocr.2.2.2.2.2.1]; rfl,
        by rw [hocr.2.2.2.2.2.2.1]; rfl, by rw [hocr.2.2.1]; rfl⟩

/-- Counterexample for C4 as stated: in a concrete run with the flag false,
no Assessment StageResult is recorded at all (the claim asserts a succeeded
"skipped" result is). -/
theorem C4_assessment_disabled_counterexample :
    inputQaOff.generate_qa = false
    ∧ (runPipeline portsAllFail inputQaOff).qa_agent_output = none :=
  ⟨rfl, rfl⟩

/-- Witness for C4 at a concrete run. -/
theorem C4_assessment_disabled_witness :
    (runPipeline portsAllFail inputQaOff).qa_items = [] :=
  (C4_assessment_disabled portsAllFail inputQaOff rfl).1

/-- C5 (amended): For every input state, the Enrichment stage sets
`enhanced_content` (it is non-absent when the stage returns) in every
branch; under total failure it falls back to the corrected text — hence to
the empty string, not to the raw OCR text, when the corrected text is
missing. -/
theorem C5_enhanced_content_always_set (p : Ports) (s : NoteProcessingState) :
    ((content_agent p s).enhanced_content).isSome = true
    ∧ (s.ocr_corrected_text = "" →
        (content_agent p s).enhanced_content = some "") := by
  constructor
  · simp only [content_agent]
    repeat' split
    all_goals simp
  · intro h
    simp [content_agent, h]

/-- Counterexample for C5 as stated: with the corrected text missing and raw
OCR text `"hello"`, the stage sets `enhanced_content` to the empty string,
not to the raw OCR text. -/
theorem C5_enhanced_content_counterexample :
    c5State.ocr_raw_text = "hello"
    ∧ (content_agent portsAllFail c5State).enhanced_content = some ""
    ∧ (content_agent portsAllFail c5State).enhanced_content
        ≠ some c5State.ocr_raw_text :=
  ⟨rfl, rfl, by decide⟩

/-- Witness for C5 at a concrete state with empty corrected text. -/
theorem C5_enhanced_content_always_set_witness :
    (content_agent portsAllFail c5State).enhanced_content = some "" :=
  (C5_enhanced_content_always_set portsAllFail c5State).2 rfl

/-- Counterexample for C6 as stated: with OCR succeeding on `"2+2=4"` and
every completion call failing, the run ends `failed` (not `completed`), and
the error list has two entries (Assessment and Assembly) although four
completion calls were made and failed. -/
theorem C6_all_completions_fail_counterexample :
    portsAllFail.ocrExtract inputQaOn.image_bytes = .ok ("2+2=4", 19/20)
    ∧ portsAllFail.ocrCorrection = .error "boom"
    ∧ portsAllFail.structureCompletion = .error "boom"
    ∧ portsAllFail.contentCompletion = .error "boom"
    ∧ portsAllFail.qaCompletion = .error "boom"
    ∧ portsAllFail.integrationCompletion = .error "boom"
    ∧ (runPipeline portsAllFail inputQaOn).status = .failed
    ∧ ProcessingStatus.failed ≠ ProcessingStatus.completed
    ∧ (runPipeline portsAllFail inputQaOn).errors.length = 2 :=
  ⟨rfl, rfl, rfl, rfl, rfl, rfl, rfl, by decide, rfl⟩

/-- C6 (amended): when the OCR extraction succeeds but every completion call
fails, Extraction, Structuring and Enrichment fall back silently (raw text
plus rule-based spans, rule-based structuring, pass-through enhanced
content) without error entries; Assessment's failed call empties its lists
and appends one error; Assembly's failed call appends one error, uses the
fallback document, and sets the run status to `failed`. -/
theorem C6_all_completions_fail_amended :
    (runPipeline portsAllFail inputQaOn).status = .failed
    ∧ (runPipeline portsAllFail inputQaOn).errors
        = ["QA Agent failed: boom", "Integration Agent failed: boom"]
    ∧ (runPipeline portsAllFail inputQaOn).text_blocks
        = (rule_based_structure_analysis "2+2=4").text_blocks
    ∧ (runPipeline portsAllFail inputQaOn).ocr_corrected_text = "2+2=4"
    ∧ (runPipeline portsAllFail inputQaOn).special_contents
        = extract_special_content "2+2=4".data
    ∧ (runPipeline portsAllFail inputQaOn).enhanced_content = some "2+2=4"
    ∧ (runPipeline portsAllFail inputQaOn).qa_items = []
    ∧ (runPipeline portsAllFail inputQaOn).final_note = "2+2=4" :=
  ⟨rfl, rfl, rfl, rfl, rfl, rfl, rfl, rfl⟩

/-- C8: In the final metadata built by the Assembly stage's success path
(reached when the completion call succeeds and the raw `key_points` and
`cross_references` values are lists, as every non-exceptional upstream run
leaves them — a truthy non-list `cross_references` would instead abort the
stage inside `build_integration_prompt`), the retrieval-used flag is true
iff the list of retrieved related documents is non-empty and the
assessment-generated flag is true iff the list of review items is non-empty
— both derived from results, not from the run's input flags, so a run with
retrieval enabled but zero results reports retrieval-used = false. -/
theorem C8_metadata_flags (p : Ports) (s : NoteProcessingState) (txt : String)
    (kps crs : List Json)
    (hcall : p.integrationCompletion = .ok txt)
    (hkp : s.key_points = .arr kps)
    (hcr : s.cross_references = .arr crs) :
    jsonLookup (integration_agent p s).final_metadata "used_rag"
        = some (.bool (!s.related_notes.isEmpty))
    ∧ jsonLookup (integration_agent p s).final_metadata "generated_qa"
        = some (.bool (!s.qa_items.isEmpty))
    ∧ (s.related_notes = [] →
        jsonLookup (integration_agent p s).final_metadata "used_rag"
          = some (.bool false)) := by
  have hfp : ∃ ls, build_integration_prompt
      { s with current_agent := "integration_agent" } = .ok ls := by
    have hcr2 : ({ s with current_agent := "integration_agent" }
        : NoteProcessingState).cross_references = .arr crs := hcr
    unfold build_integration_prompt crossRefLines
    rw [hcr2]
    by_cases hc : jsonTruthy (.arr crs) <;> simp [hc, pyIterList]
  obtain ⟨ls, hp⟩ := hfp
  have hfq : ∃ str, format_qa_section s.qa_items s.key_points = .ok str := by
    rw [hkp]
    unfold format_qa_section keyPointSections
    by_cases hk : jsonTruthy (.arr kps) <;> simp [hk, pyIterList]
  obtain ⟨qsec, hq⟩ := hfq
  have hmain : ∀ r, jsonLookup (integration_agent p s).final_metadata r
      = jsonLookup (Json.obj [
        ("processing_time_total", .num (round2 ((s.processing_times.map (fun pr => pr.2)).sum))),
        ("processing_times", .obj (s.processing_times.map
            (fun pr => (pr.1, Json.num (round2 pr.2))))),
        ("ocr_confidence", .num s.ocr_confidence),
        ("document_type", .str s.document_type),
        ("related_notes_count", .num (s.related_notes.length : ℚ)),
        ("key_concepts_count", .num (s.key_concepts.length : ℚ)),
        ("qa_items_count", .num (s.qa_items.length : ℚ)),
        ("knowledge_cards_count", .num (s.knowledge_cards.length : ℚ)),
        ("special_contents_count", .num (s.special_contents.length : ℚ)),
        ("errors", .arr (s.errors.map Json.str)),
        ("agents_run", .arr (s.processing_times.map (fun pr => Json.str pr.1))),
        ("used_rag", .bool (!s.related_notes.isEmpty)),
        ("generated_qa", .bool (!s.qa_items.isEmpty)),
        ("timestamp", .str p.now)]) r := by
    intro r
    simp only [integration_agent, integrationTry, hp, hcall, hq]
  refine ⟨?_, ?_, ?_⟩
  · rw [hmain]
    simp [jsonLookup, List.find?]
  · rw [hmain]
    simp [jsonLookup, List.find?]
  · intro hrel
    rw [hmain]
    simp [jsonLookup, List.find?, hrel]

/-- Witness for C8: a run state with retrieval enabled (scope id present)
but zero retrieved documents reports retrieval-used = false. -/
theorem C8_metadata_flags_witness :
    jsonLookup (integration_agent portsPlainOk c8State).final_metadata "used_rag"
      = some (.bool false) :=
  (C8_metadata_flags portsPlainOk c8State "final note body" [] [] rfl rfl rfl).2.2 rfl

/-- C10 (amended): If the Assessment completion call returns text that fails
JSON decoding, the stage records succeeded = true with all three counts zero
and appends nothing to the error list; but text that decodes to JSON of the
wrong shape (e.g. a top-level array) raises past the parser's narrow except
clause and yields succeeded = false with an appended error entry, as do
exceptions from the completion call itself and absent content. -/
theorem C10_qa_parse_failure_modes (p : Ports) (s : NoteProcessingState)
    (t txt : String)
    (hflag : s.should_generate_qa = true)
    (henh : s.enhanced_content = some t) (ht : t ≠ "")
    (hcall : p.qaCompletion = .ok txt) :
    (p.jsonLoads (extractJsonStr txt) = none →
      ∃ o, (qa_agent p s).qa_agent_output = some o ∧ o.success = true
        ∧ jsonLookup o.data "qa_count" = some (.num 0)
        ∧ jsonLookup o.data "card_count" = some (.num 0)
        ∧ jsonLookup o.data "key_point_count" = some (.num 0)
        ∧ (qa_agent p s).errors = s.errors
        ∧ (qa_agent p s).qa_items = []
        ∧ (qa_agent p s).knowledge_cards = [])
    ∧ (∀ xs, p.jsonLoads (extractJsonStr txt) = some (.arr xs) →
      ∃ o, (qa_agent p s).qa_agent_output = some o ∧ o.success = false
        ∧ (qa_agent p s).errors
            = s.errors ++ ["QA Agent failed: " ++ pyErrMsg .attributeError]) := by
  constructor
  · intro hdec
    have hparse : parse_qa_response p.jsonLoads txt = .ok ([], [], .arr []) := by
      unfold parse_qa_response jsonLoadsVia
      rw [hdec]
    refine ⟨mkOkOutput "qa_agent" (.obj
      [("qa_count", .num ((0 : ℕ) : ℚ)),
       ("card_count", .num ((0 : ℕ) : ℚ)),
       ("key_point_count", .num ((0 : ℕ) : ℚ))]), ?_⟩
    simp [qa_agent, hflag, henh, ht, hcall, hparse, pyLen, jsonLookup, mkOkOutput]
  · intro xs hdec
    have hparse : parse_qa_response p.jsonLoads txt = .error .attributeError := by
      unfold parse_qa_response jsonLoadsVia
      rw [hdec]
      rfl
    refine ⟨mkFailOutput "qa_agent" ("QA Agent failed: " ++ pyErrMsg .attributeError), ?_⟩
    simp [qa_agent, qaExceptPath, hflag, henh, ht, hcall, hparse, mkFailOutput]

/-- Counterexample for C10 as stated: a completion response of `"[]"` (valid
JSON, wrong shape) with content present yields succeeded = false and an
appended error entry, although no exception came from the completion call
and content was available. -/
theorem C10_wrong_shape_counterexample :
    portsQaBadShape.qaCompletion = .ok "[]"
    ∧ qaDemoState.enhanced_content = some "note text"
    ∧ (qa_agent portsQaBadShape qaDemoState).qa_agent_output.map (fun o => o.success)
        = some false
    ∧ (qa_agent portsQaBadShape qaDemoState).errors.length = 1 :=
  ⟨rfl, rfl, rfl, rfl⟩

/-- Witness for C10: an undecodable plain-text response appends no error. -/
theorem C10_qa_parse_failure_modes_witness :
    (qa_agent portsPlainOk qaDemoState).errors = qaDemoState.errors := by
  obtain ⟨o, ho⟩ := (C10_qa_parse_failure_modes portsPlainOk qaDemoState
    "note text" "plain text" rfl rfl (by decide) rfl).1 rfl
  exact ho.2.2.2.2.2.1

end SnapNote
